import Mathlib

/-!
Verification of the station normalization, classification, filtering and
aggregation pipeline of the ne-ebike-pev repository
(src/scripts/fetch_charging_stations.py and src/scripts/scrape_plugshare.py).

Python dictionaries of JSON data are embedded as association lists
(first binding of a key wins; keys of one dict are distinct, as in Python),
JSON values as the inductive type JVal, and a raised exception
(KeyError on a missing key, TypeError on an ill-typed connector list)
as the value none of an Option result.
-/

/-- A JSON value as delivered by the ingest collaborator: null, string,
number (JSON decimals embedded as rationals) or array. -/
inductive JVal where
  | null : JVal
  | str : String → JVal
  | num : Rat → JVal
  | arr : List JVal → JVal
deriving Repr, Inhabited

mutual

/-- Structural equality test on JSON values (Python == on such values). -/
def JVal.beq : JVal → JVal → Bool
  | .null, .null => true
  | .str a, .str b => a == b
  | .num a, .num b => a == b
  | .arr as, .arr bs => JVal.beqL as bs
  | _, _ => false

/-- Structural equality test on lists of JSON values. -/
def JVal.beqL : List JVal → List JVal → Bool
  | [], [] => true
  | a :: as, b :: bs => JVal.beq a b && JVal.beqL as bs
  | _, _ => false

end

mutual

theorem JVal.beq_refl : (v : JVal) → JVal.beq v v = true
  | .null => rfl
  | .str a => by simp [JVal.beq]
  | .num a => by simp [JVal.beq]
  | .arr as => by simpa [JVal.beq] using JVal.beqL_refl as

theorem JVal.beqL_refl : (vs : List JVal) → JVal.beqL vs vs = true
  | [] => rfl
  | a :: as => by simp [JVal.beqL, JVal.beq_refl a, JVal.beqL_refl as]

end

mutual

theorem JVal.eq_of_beq : {a b : JVal} → JVal.beq a b = true → a = b
  | .null, .null, _ => rfl
  | .str a, .str b, h => by simp [JVal.beq] at h; rw [h]
  | .num a, .num b, h => by simp [JVal.beq] at h; rw [h]
  | .arr as, .arr bs, h =>
      congrArg JVal.arr (JVal.eqL_of_beqL (by simpa [JVal.beq] using h))

theorem JVal.eqL_of_beqL : {as bs : List JVal} → JVal.beqL as bs = true → as = bs
  | [], [], _ => rfl
  | a :: as, b :: bs, h => by
      simp only [JVal.beqL, Bool.and_eq_true] at h
      rw [JVal.eq_of_beq h.1, JVal.eqL_of_beqL h.2]

end

instance : DecidableEq JVal := fun a b =>
  if h : JVal.beq a b = true then isTrue (JVal.eq_of_beq h)
  else isFalse (fun he => h (he ▸ JVal.beq_refl a))

/-- A parsed JSON object / Python dict: an association list from keys to
values. Keys of one dict are distinct, as in a Python dict; lookup takes
the first binding. -/
abbrev Dict := List (String × JVal)

namespace Dict

/-- Lookup of a key, none when the key is absent: Python d[k] raising
KeyError is modelled by the none case at the use site. -/
def get? (d : Dict) (k : String) : Option JVal :=
  (d.find? (fun p => p.1 == k)).map (fun p => p.2)

/-- Python d.get(k, default): the value bound to k, or the default when
the key is absent. Python d.get(k) without a default is get with
default JVal.null. -/
def get (d : Dict) (k : String) (dflt : JVal) : JVal :=
  (get? d k).getD dflt

end Dict

/-- Python truthiness test on a JSON value: None, 0, the empty string and
the empty list are falsy. -/
def pyFalsy : JVal → Bool
  | JVal.null => true
  | JVal.num q => q == 0
  | JVal.str s => s == ""
  | JVal.arr vs => vs.isEmpty

/-- Python expression (v or 0), as used for the EVSE port counts in
process_stations: a falsy value is replaced by 0. -/
def pyOr0 (v : JVal) : JVal :=
  if pyFalsy v then JVal.num 0 else v

/-- Recovers a list of strings from a list of JSON values; none when some
element is not a string (calling startswith on it raises in Python). -/
def strListOf : List JVal → Option (List String)
  | [] => some []
  | JVal.str s :: rest => (strListOf rest).map (fun l => s :: l)
  | _ => none

/-- Extracts a list of strings from a JSON array of strings; none when the
value is not such an array (iterating it with startswith, as the
classifier and the filter do, raises in Python). -/
def asStrList : JVal → Option (List String)
  | JVal.arr vs => strListOf vs
  | _ => none

/-- Python c.startswith(stem): the characters of stem are a prefix of
the characters of c. -/
def startswith (c stem : String) : Bool :=
  stem.data.isPrefixOf c.data

/-- Module constant EBIKE_RELEVANT_CONNECTORS of
fetch_charging_stations.py (lines 24 to 29). It is declared in the script
but not referenced by filter_ebike_friendly, which tests the two family
stems NEMA and J1772 inline. -/
def EBIKE_RELEVANT_CONNECTORS : List String :=
  ["NEMA515", "NEMA520", "NEMA1450", "J1772"]

/-- The canonical station record built by process_stations (the dict
literal at lines 82 to 103 of fetch_charging_stations.py): one field per
key of that literal, in order. Fields that simply carry a looked-up JSON
value are typed JVal; connectors is the extracted string list, and
chargerType and icon are the strings assigned by the classifier. -/
structure Station where
  id : JVal
  name : JVal
  address : JVal
  city : JVal
  state : JVal
  zip : JVal
  lat : JVal
  lng : JVal
  phone : JVal
  hours : JVal
  pricing : JVal
  network : JVal
  connectors : List String
  chargerType : String
  icon : String
  level1Count : JVal
  level2Count : JVal
  dcFastCount : JVal
  facilityType : JVal
  lastConfirmed : JVal
deriving Repr, DecidableEq, Inhabited

/-- Normalization and classification of one raw NREL record, the loop body
of process_stations (fetch_charging_stations.py lines 63 to 105).
Returns none exactly when the Python body raises: a KeyError when the key
id is absent, or a TypeError when the value of ev_connector_types is not
an array of strings. -/
def process_station (station : Dict) : Option Station :=
  match asStrList (Dict.get station "ev_connector_types" (JVal.arr [])),
        Dict.get? station "id" with
  | some connectors, some idv =>
    let has_nema := connectors.any (fun c => startswith c "NEMA")
    let has_j1772 := connectors.contains "J1772"
    let ct : String × String :=
      if has_nema then ("NEMA", "🔌")
      else if has_j1772 then ("J1772", "⚡")
      else ("Other", "🔋")
    some {
      id := idv,
      name := Dict.get station "station_name" (JVal.str "Unknown"),
      address := Dict.get station "street_address" (JVal.str ""),
      city := Dict.get station "city" (JVal.str ""),
      state := Dict.get station "state" (JVal.str ""),
      zip := Dict.get station "zip" (JVal.str ""),
      lat := Dict.get station "latitude" JVal.null,
      lng := Dict.get station "longitude" JVal.null,
      phone := Dict.get station "station_phone" JVal.null,
      hours := Dict.get station "access_days_time" (JVal.str ""),
      pricing := Dict.get station "ev_pricing" (JVal.str "Unknown"),
      network := Dict.get station "ev_network" (JVal.str "Non-Networked"),
      connectors := connectors,
      chargerType := ct.1,
      icon := ct.2,
      level1Count := pyOr0 (Dict.get station "ev_level1_evse_num" (JVal.num 0)),
      level2Count := pyOr0 (Dict.get station "ev_level2_evse_num" (JVal.num 0)),
      dcFastCount := pyOr0 (Dict.get station "ev_dc_fast_num" (JVal.num 0)),
      facilityType := Dict.get station "facility_type" (JVal.str ""),
      lastConfirmed := Dict.get station "date_last_confirmed" (JVal.str "")
    }
  | _, _ => none

/-- The full process_stations loop over the list data.get("fuel_stations",
[]): records are processed in order and appended; none when some record
makes the loop body raise. -/
def process_stations (fuel_stations : List Dict) : Option (List Station) :=
  fuel_stations.mapM process_station

/-- The relevance filter filter_ebike_friendly (fetch_charging_stations.py
lines 109 to 126): keeps a station when some connector identifier starts
with one of the two inline family stems NEMA and J1772. On a normalized
station the lookup station.get("connectors", []) always finds the
connectors field. -/
def filter_ebike_friendly (stations : List Station) : List Station :=
  stations.filter (fun station =>
    station.connectors.any (fun c =>
      (["NEMA", "J1772"]).any (fun stem => startswith c stem)))

/-- One step of the Python counting idiom m[k] = m.get(k, 0) + 1 on an
insertion-ordered dict: increment the binding of k in place when present,
otherwise append k with count 1. -/
def bump (m : List (JVal × Nat)) (k : JVal) : List (JVal × Nat) :=
  match m with
  | [] => [(k, 1)]
  | (k0, n) :: rest => if k0 = k then (k0, n + 1) :: rest else (k0, n) :: bump rest k

/-- The counting loops of save_stations (fetch_charging_stations.py lines
131 to 141): fold the stations through bump on the chosen key. On a
normalized station the lookups s.get("state", "Unknown") and
s.get("chargerType", "Unknown") always find the field, so the key is the
field value itself. -/
def countBy (key : Station → JVal) (stations : List Station) : List (JVal × Nat) :=
  stations.foldl (fun m s => bump m (key s)) []

/-- Lookup of a key in a counting dict; none when the key is absent. -/
def lookupNat : List (JVal × Nat) → JVal → Option Nat
  | [], _ => none
  | (k0, n) :: rest, k => if k0 = k then some n else lookupNat rest k

/-- The count stored under a key, 0 when the key is absent. -/
def getCount (m : List (JVal × Nat)) (k : JVal) : Nat :=
  (lookupNat m k).getD 0

/-- Sum of the counts of a counting dict. -/
def sumVals : List (JVal × Nat) → Nat
  | [] => 0
  | p :: rest => p.2 + sumVals rest

/-- The metadata object written by save_stations
(fetch_charging_stations.py lines 145 to 152), one field per key of the
dict literal, in order. lastUpdated is the run time datetime.now()
passed in by the caller of the embedding. -/
structure Metadata where
  lastUpdated : String
  source : String
  sourceUrl : String
  totalStations : Nat
  byState : List (JVal × Nat)
  byType : List (JVal × Nat)
deriving Repr, DecidableEq

/-- The JSON keys of the metadata object save_stations persists, in the
order of the dict literal at lines 145 to 152: the field names of
Metadata. -/
def nrelMetadataKeys : List String :=
  ["lastUpdated", "source", "sourceUrl", "totalStations", "byState", "byType"]

/-- The top-level document save_stations writes: the stations list plus
the metadata object. -/
structure SavedOutput where
  stations : List Station
  metadata : Metadata
deriving Repr, DecidableEq

/-- The persist step save_stations (fetch_charging_stations.py lines 128
to 159) without the file write: builds the counting dicts over the given
stations and assembles the output document. now stands for
datetime.now().isoformat(). -/
def save_stations (stations : List Station) (now : String) : SavedOutput :=
  { stations := stations,
    metadata := {
      lastUpdated := now,
      source := "NREL Alternative Fuel Data Center",
      sourceUrl := "https://afdc.energy.gov/stations/",
      totalStations := stations.length,
      byState := countBy (fun s => s.state) stations,
      byType := countBy (fun s => JVal.str s.chargerType) stations } }

/-- Module constant CONNECTOR_TYPES of scrape_plugshare.py (lines 28
to 32). -/
def CONNECTOR_TYPES : List (Nat × String) :=
  [(1, "NEMA 5-15 (Wall Outlet)"), (2, "J1772"), (6, "NEMA 14-50")]

/-- The metadata object written by save_charging_data
(scrape_plugshare.py lines 109 to 115), one field per key of the dict
literal, in order. It carries no byType mapping. -/
structure PSMetadata where
  lastUpdated : String
  source : String
  connectorTypes : List (Nat × String)
  totalStations : Nat
  byState : List (JVal × Nat)
deriving Repr, DecidableEq

/-- The JSON keys of the metadata object save_charging_data persists, in
the order of the dict literal at lines 109 to 115: the field names of
PSMetadata. -/
def psMetadataKeys : List String :=
  ["lastUpdated", "source", "connectorTypes", "totalStations", "byState"]

/-- The top-level document save_charging_data writes. The PlugShare
pipeline performs no normalization, so its stations stay raw dicts. -/
structure PSOutput where
  stations : List Dict
  metadata : PSMetadata
deriving Repr, DecidableEq

/-- The byState counting loop of save_charging_data (scrape_plugshare.py
lines 118 to 123): each station contributes the key
station.get("state", "Unknown"), so a dict with no state key lands in the
Unknown bucket. -/
def psCountByState (stations : List Dict) : List (JVal × Nat) :=
  stations.foldl (fun m s => bump m (Dict.get s "state" (JVal.str "Unknown"))) []

/-- The persist step save_charging_data (scrape_plugshare.py lines 104 to
129) without the file write. The Python code first assembles the document
with byState set to the empty dict and then fills it by the counting
loop; the embedding builds the final value directly. -/
def save_charging_data (stations : List Dict) (now : String) : PSOutput :=
  { stations := stations,
    metadata := {
      lastUpdated := now,
      source := "PlugShare (sample data - replace with actual scrape)",
      connectorTypes := CONNECTOR_TYPES,
      totalStations := stations.length,
      byState := psCountByState stations } }

/-!
Helper lemmas about the counting idiom.
-/

theorem sumVals_bump (m : List (JVal × Nat)) (k : JVal) :
    sumVals (bump m k) = sumVals m + 1 := by
  induction m with
  | nil => rfl
  | cons p rest ih =>
    obtain ⟨k0, n⟩ := p
    by_cases h : k0 = k <;> simp [bump, h, sumVals, ih] <;> omega

theorem sumVals_foldl {α : Type} (f : α → JVal) (l : List α) :
    ∀ m : List (JVal × Nat),
      sumVals (l.foldl (fun acc s => bump acc (f s)) m) = sumVals m + l.length := by
  induction l with
  | nil => intro m; simp
  | cons s rest ih =>
    intro m
    simp only [List.foldl_cons, List.length_cons, ih (bump m (f s)), sumVals_bump]
    omega

theorem getCount_bump (m : List (JVal × Nat)) (k k0 : JVal) :
    getCount (bump m k) k0 = getCount m k0 + (if k = k0 then 1 else 0) := by
  induction m with
  | nil =>
    by_cases h : k = k0 <;> simp [bump, getCount, lookupNat, h]
  | cons p rest ih =>
    obtain ⟨k1, n⟩ := p
    by_cases h1 : k1 = k
    · subst h1
      by_cases h2 : k1 = k0 <;> simp [bump, getCount, lookupNat, h2]
    · by_cases h2 : k1 = k0
      · subst h2
        have hk : ¬ k = k1 := fun he => h1 he.symm
        simp [bump, h1, getCount, lookupNat, hk]
      · simp only [bump, if_neg h1]
        simp [getCount, lookupNat, h2] at ih ⊢
        exact ih

theorem getCount_foldl {α : Type} (f : α → JVal) (k : JVal) (l : List α) :
    ∀ m : List (JVal × Nat),
      getCount (l.foldl (fun acc s => bump acc (f s)) m) k
        = getCount m k + l.countP (fun s => decide (f s = k)) := by
  induction l with
  | nil => intro m; simp
  | cons s rest ih =>
    intro m
    simp only [List.foldl_cons, List.countP_cons, ih (bump m (f s)), getCount_bump]
    by_cases h : f s = k
    · simp [h]
      omega
    · simp [h]

/-!
Claim theorems.
-/

/-- C2: for every station list passed to the persist step save_stations,
the counts of the computed byState mapping sum to totalStations, and the
counts of the computed byType mapping sum to totalStations, totalStations
being the length of the station list. -/
theorem c2_byState_byType_sums_to_total (stations : List Station) (now : String) :
    sumVals (save_stations stations now).metadata.byState
        = (save_stations stations now).metadata.totalStations
    ∧ sumVals (save_stations stations now).metadata.byType
        = (save_stations stations now).metadata.totalStations := by
  constructor
  · have h := sumVals_foldl (fun s : Station => s.state) stations []
    simpa [save_stations, countBy, sumVals] using h
  · have h := sumVals_foldl (fun s : Station => JVal.str s.chargerType) stations []
    simpa [save_stations, countBy, sumVals] using h

/-- C3 counterexample: the metadata object persisted by the PlugShare
pipeline save_charging_data has no byType key, so the claimed shape fails
for that pipeline. -/
theorem c3_plugshare_metadata_has_no_byType :
    psMetadataKeys.contains "byType" = false := rfl

/-- C3 amended: both persisted metadata objects carry lastUpdated, a
source label, totalStations and a byState mapping, and the NREL pipeline
additionally carries the byType mapping; the PlugShare metadata carries
no byType key. -/
theorem c3_amended_metadata_shapes :
    (nrelMetadataKeys.contains "lastUpdated"
      && nrelMetadataKeys.contains "source"
      && nrelMetadataKeys.contains "totalStations"
      && nrelMetadataKeys.contains "byState"
      && nrelMetadataKeys.contains "byType") = true
    ∧ (psMetadataKeys.contains "lastUpdated"
      && psMetadataKeys.contains "source"
      && psMetadataKeys.contains "totalStations"
      && psMetadataKeys.contains "byState") = true
    ∧ psMetadataKeys.contains "byType" = false := by
  exact ⟨rfl, rfl, rfl⟩

/-- C4 counterexample: the NREL pipeline run on the single raw record
with key id bound to 7 and nothing else normalizes the missing state to
the empty string, and the persisted byState mapping then holds the single
bucket of the empty-string key: no Unknown bucket appears although the
collection contains a station with empty state. -/
theorem c4_empty_state_not_counted_as_unknown :
    (process_stations [[("id", JVal.num 7)]]).map
        (fun l => ((save_stations l "t").metadata.byState,
                   getCount (save_stations l "t").metadata.byState (JVal.str "Unknown")))
      = some ([(JVal.str "", 1)], 0) := rfl

/-- C4 amended: the aggregator counts every station under its exact state
value. A station whose state is the empty string, which is what
normalization produces when the upstream state is missing, is counted
under the empty-string bucket, and that bucket holds exactly the number
of such stations. The Unknown bucket belongs to the PlugShare aggregator,
whose per-dict key lookup with default Unknown sends exactly the raw
dicts lacking a state key, or carrying the literal string Unknown, to
that bucket. -/
theorem c4_amended_state_buckets (stations : List Station)
    (rawStations : List Dict) (now : String) :
    getCount (save_stations stations now).metadata.byState (JVal.str "")
        = stations.countP (fun s => decide (s.state = JVal.str ""))
    ∧ getCount (psCountByState rawStations) (JVal.str "Unknown")
        = rawStations.countP (fun d =>
            decide (Dict.get d "state" (JVal.str "Unknown") = JVal.str "Unknown")) := by
  constructor
  · have h := getCount_foldl (fun s : Station => s.state) (JVal.str "") stations []
    simpa [save_stations, countBy, getCount, lookupNat] using h
  · have h := getCount_foldl (fun d : Dict => Dict.get d "state" (JVal.str "Unknown"))
      (JVal.str "Unknown") rawStations []
    simpa [psCountByState, getCount, lookupNat] using h

/-- C5: the relevance filter keeps a station from the input list exactly
when some connector identifier starts with an entry of the configured
allow-list of family stems, NEMA and J1772; in particular a station with
an empty connector list is dropped. -/
theorem c5_filter_membership (stations : List Station) (s : Station) :
    s ∈ filter_ebike_friendly stations
      ↔ s ∈ stations
        ∧ ∃ c ∈ s.connectors, ∃ stem ∈ ["NEMA", "J1772"], startswith c stem = true := by
  simp [filter_ebike_friendly, List.mem_filter, List.any_eq_true]

/-- C7: applying the relevance filter twice gives the same station list
as applying it once. -/
theorem c7_filter_idempotent (stations : List Station) :
    filter_ebike_friendly (filter_ebike_friendly stations)
      = filter_ebike_friendly stations := by
  simp [filter_ebike_friendly, List.filter_filter]

theorem process_station_inv (d : Dict) (s : Station)
    (h : process_station d = some s) :
    asStrList (Dict.get d "ev_connector_types" (JVal.arr [])) = some s.connectors
    ∧ s.chargerType
        = (if s.connectors.any (fun c => startswith c "NEMA") then "NEMA"
           else if s.connectors.contains "J1772" then "J1772" else "Other")
    ∧ s.phone = Dict.get d "station_phone" JVal.null
    ∧ s.hours = Dict.get d "access_days_time" (JVal.str "")
    ∧ s.pricing = Dict.get d "ev_pricing" (JVal.str "Unknown")
    ∧ s.network = Dict.get d "ev_network" (JVal.str "Non-Networked")
    ∧ s.facilityType = Dict.get d "facility_type" (JVal.str "")
    ∧ s.lastConfirmed = Dict.get d "date_last_confirmed" (JVal.str "")
    ∧ s.state = Dict.get d "state" (JVal.str "") := by
  unfold process_station at h
  rcases hc : asStrList (Dict.get d "ev_connector_types" (JVal.arr [])) with _ | connectors
  · rw [hc] at h; simp at h
  · rcases hid : Dict.get? d "id" with _ | idv
    · rw [hc, hid] at h; simp at h
    · rw [hc, hid] at h
      simp only [Option.some.injEq] at h
      subst h
      refine ⟨rfl, ?_, rfl, rfl, rfl, rfl, rfl, rfl, rfl⟩
      by_cases hn : connectors.any (fun c => startswith c "NEMA") = true
      · simp [hn]
      · by_cases hm : "J1772" ∈ connectors
        · simp [hn, hm]
        · simp [hn, hm]

/-- C1: every station produced by normalization has chargerType exactly
one of NEMA, J1772 and Other; it is NEMA whenever some connector
identifier starts with the NEMA family stem, even when J1772 is also
present; it is J1772 when no NEMA-prefixed connector exists and the
connector list contains the exact identifier J1772; and a station with an
empty connector list is classified Other, so classification is total. -/
theorem c1_chargerType_total_with_nema_precedence (d : Dict) (s : Station)
    (h : process_station d = some s) :
    (s.chargerType = "NEMA" ∨ s.chargerType = "J1772" ∨ s.chargerType = "Other")
    ∧ ((∃ c ∈ s.connectors, startswith c "NEMA" = true) → s.chargerType = "NEMA")
    ∧ (("J1772" ∈ s.connectors ∧ ∀ c ∈ s.connectors, startswith c "NEMA" = false)
        → s.chargerType = "J1772")
    ∧ (s.connectors = [] → s.chargerType = "Other") := by
  obtain ⟨-, hct, -⟩ := process_station_inv d s h
  by_cases hn : s.connectors.any (fun c => startswith c "NEMA") = true
  · have heq : s.chargerType = "NEMA" := by rw [hct]; simp [hn]
    refine ⟨Or.inl heq, fun _ => heq, ?_, ?_⟩
    · rintro ⟨-, hall⟩
      obtain ⟨c, hcm, hcs⟩ := List.any_eq_true.mp hn
      have hfalse := hall c hcm
      simp [hfalse] at hcs
    · intro hemp
      rw [hemp] at hn
      simp at hn
  · by_cases hm : "J1772" ∈ s.connectors
    · have heq : s.chargerType = "J1772" := by rw [hct]; simp [hn, hm]
      refine ⟨Or.inr (Or.inl heq), ?_, fun _ => heq, ?_⟩
      · rintro ⟨c, hcm, hcs⟩
        exact absurd (List.any_eq_true.mpr ⟨c, hcm, by simpa using hcs⟩) hn
      · intro hemp
        rw [hemp] at hm
        simp at hm
    · have heq : s.chargerType = "Other" := by rw [hct]; simp [hn, hm]
      refine ⟨Or.inr (Or.inr heq), ?_, ?_, fun _ => heq⟩
      · rintro ⟨c, hcm, hcs⟩
        exact absurd (List.any_eq_true.mpr ⟨c, hcm, by simpa using hcs⟩) hn
      · rintro ⟨hj, -⟩
        exact absurd hj hm

/-- C1 witness: the raw record with id 1 and connector identifiers
NEMA515 and J1772 satisfies the hypothesis of the classification theorem,
and the theorem classifies it NEMA although J1772 is also present. -/
theorem c1_witness :
    ((process_station [("id", JVal.num 1),
        ("ev_connector_types",
          JVal.arr [JVal.str "NEMA515", JVal.str "J1772"])]).getD default).chargerType
      = "NEMA" :=
  (c1_chargerType_total_with_nema_precedence
      [("id", JVal.num 1),
       ("ev_connector_types", JVal.arr [JVal.str "NEMA515", JVal.str "J1772"])]
      _ rfl).2.1 ⟨"NEMA515", by decide, by decide⟩

/-- C6 counterexample: for the raw record holding only the key id, the
normalized phone field is null rather than an empty string or Unknown,
and the network field is Non-Networked rather than Unknown, so the
documented defaults of the claim do not all hold. -/
theorem c6_defaults_counterexample :
    (process_station [("id", JVal.num 1)]).map (fun s => (s.phone, s.network))
      = some (JVal.null, JVal.str "Non-Networked") := rfl

/-- C6 amended: for any raw record that contains an id and is missing all
optional fields, normalization produces a station without error, with
these defaults: name Unknown; address, city, state, zip, hours,
facilityType and lastConfirmed the empty string; pricing Unknown; network
Non-Networked; phone null; lat and lng null; the three port counts 0; an
empty connector list; and chargerType Other. -/
theorem c6_amended_normalization_total_with_defaults (d : Dict) (idv : JVal)
    (hid : Dict.get? d "id" = some idv)
    (h01 : Dict.get? d "station_name" = none)
    (h02 : Dict.get? d "street_address" = none)
    (h03 : Dict.get? d "city" = none)
    (h04 : Dict.get? d "state" = none)
    (h05 : Dict.get? d "zip" = none)
    (h06 : Dict.get? d "latitude" = none)
    (h07 : Dict.get? d "longitude" = none)
    (h08 : Dict.get? d "station_phone" = none)
    (h09 : Dict.get? d "access_days_time" = none)
    (h10 : Dict.get? d "ev_pricing" = none)
    (h11 : Dict.get? d "ev_network" = none)
    (h12 : Dict.get? d "ev_connector_types" = none)
    (h13 : Dict.get? d "ev_level1_evse_num" = none)
    (h14 : Dict.get? d "ev_level2_evse_num" = none)
    (h15 : Dict.get? d "ev_dc_fast_num" = none)
    (h16 : Dict.get? d "facility_type" = none)
    (h17 : Dict.get? d "date_last_confirmed" = none) :
    process_station d = some {
      id := idv, name := JVal.str "Unknown", address := JVal.str "",
      city := JVal.str "", state := JVal.str "", zip := JVal.str "",
      lat := JVal.null, lng := JVal.null, phone := JVal.null,
      hours := JVal.str "", pricing := JVal.str "Unknown",
      network := JVal.str "Non-Networked", connectors := [],
      chargerType := "Other", icon := "🔋", level1Count := JVal.num 0,
      level2Count := JVal.num 0, dcFastCount := JVal.num 0,
      facilityType := JVal.str "", lastConfirmed := JVal.str "" } := by
  simp [process_station, Dict.get, hid, h01, h02, h03, h04, h05, h06, h07, h08,
    h09, h10, h11, h12, h13, h14, h15, h16, h17, asStrList, strListOf, pyOr0, pyFalsy]

/-- C6 witness: the raw record holding only the binding of id to 11
satisfies every hypothesis of the amended normalization theorem, and the
theorem computes its normalized station. -/
theorem c6_witness :
    process_station [("id", JVal.num 11)] = some {
      id := JVal.num 11, name := JVal.str "Unknown", address := JVal.str "",
      city := JVal.str "", state := JVal.str "", zip := JVal.str "",
      lat := JVal.null, lng := JVal.null, phone := JVal.null,
      hours := JVal.str "", pricing := JVal.str "Unknown",
      network := JVal.str "Non-Networked", connectors := [],
      chargerType := "Other", icon := "🔋", level1Count := JVal.num 0,
      level2Count := JVal.num 0, dcFastCount := JVal.num 0,
      facilityType := JVal.str "", lastConfirmed := JVal.str "" } :=
  c6_amended_normalization_total_with_defaults [("id", JVal.num 11)] (JVal.num 11)
    rfl rfl rfl rfl rfl rfl rfl rfl rfl rfl rfl rfl rfl rfl rfl rfl rfl rfl

/-- C8 counterexample: for the raw record holding only the key id bound
to 2, all six descriptive upstream fields are absent, yet the normalized
phone field is null, not a string, and the normalized network field is
the string Non-Networked, which is neither Unknown nor empty. -/
theorem c8_defaults_counterexample :
    (process_station [("id", JVal.num 2)]).map (fun s => (s.phone, s.network))
      = some (JVal.null, JVal.str "Non-Networked") := rfl

/-- C8 amended: for every raw record in which the upstream fields for
network, pricing, hours, facilityType, phone and lastConfirmed are
absent, the normalized station has pricing Unknown, hours the empty
string, facilityType the empty string, lastConfirmed the empty string,
network Non-Networked, and phone null. -/
theorem c8_amended_descriptive_defaults (d : Dict) (s : Station)
    (hp : Dict.get? d "station_phone" = none)
    (hh : Dict.get? d "access_days_time" = none)
    (hpr : Dict.get? d "ev_pricing" = none)
    (hnet : Dict.get? d "ev_network" = none)
    (hf : Dict.get? d "facility_type" = none)
    (hl : Dict.get? d "date_last_confirmed" = none)
    (h : process_station d = some s) :
    s.phone = JVal.null ∧ s.hours = JVal.str "" ∧ s.pricing = JVal.str "Unknown"
    ∧ s.network = JVal.str "Non-Networked" ∧ s.facilityType = JVal.str ""
    ∧ s.lastConfirmed = JVal.str "" := by
  obtain ⟨-, -, hph, hho, hpri, hne, hfac, hlast, -⟩ := process_station_inv d s h
  rw [hph, hho, hpri, hne, hfac, hlast]
  simp [Dict.get, hp, hh, hpr, hnet, hf, hl]

/-- C8 witness: the raw record holding only the binding of id to 12
satisfies every hypothesis of the amended defaults theorem, which then
gives the six default values of its normalized station. -/
theorem c8_witness :
    ((process_station [("id", JVal.num 12)]).getD default).phone = JVal.null
    ∧ ((process_station [("id", JVal.num 12)]).getD default).hours = JVal.str ""
    ∧ ((process_station [("id", JVal.num 12)]).getD default).pricing = JVal.str "Unknown"
    ∧ ((process_station [("id", JVal.num 12)]).getD default).network
        = JVal.str "Non-Networked"
    ∧ ((process_station [("id", JVal.num 12)]).getD default).facilityType = JVal.str ""
    ∧ ((process_station [("id", JVal.num 12)]).getD default).lastConfirmed
        = JVal.str "" :=
  c8_amended_descriptive_defaults [("id", JVal.num 12)] _ rfl rfl rfl rfl rfl rfl rfl

/-- C9: on a raw record whose ev_connector_types value is absent or a
well-typed array of strings, normalization succeeds exactly when the
record contains the key id: id is the only field read without a default,
so its absence is the one field absence that makes the loop body of
process_stations raise. -/
theorem c9_success_iff_id_present (d : Dict) (cs : List String)
    (hw : asStrList (Dict.get d "ev_connector_types" (JVal.arr [])) = some cs) :
    (process_station d).isSome = (Dict.get? d "id").isSome := by
  unfold process_station
  rw [hw]
  cases Dict.get? d "id" <;> rfl

/-- C9 witness: the raw record holding only the binding of id to 5 has an
absent connector list, which extracts to the empty string list, and the
theorem equates success of normalization with the presence of id. -/
theorem c9_witness :
    asStrList (Dict.get [("id", JVal.num 5)] "ev_connector_types" (JVal.arr []))
        = some []
    ∧ (process_station [("id", JVal.num 5)]).isSome
        = (Dict.get? [("id", JVal.num 5)] "id").isSome :=
  ⟨rfl, c9_success_iff_id_present [("id", JVal.num 5)] [] rfl⟩

/-- C10: passing the relevance filter does not imply a NEMA or J1772
chargerType: the station normalized from a record whose only connector
identifier is J1772COMBO is retained by the prefix-based filter but
classified Other, because the classifier requires exact membership of
J1772 in the connector list. -/
theorem c10_filter_keeps_station_classified_other :
    ∃ s, process_station [("id", JVal.num 3),
          ("ev_connector_types", JVal.arr [JVal.str "J1772COMBO"])] = some s
      ∧ filter_ebike_friendly [s] = [s]
      ∧ s.chargerType = "Other" := by
  refine ⟨_, rfl, ?_, ?_⟩ <;> decide
